import Mathlib

/-!
Verification of the quality-gate scoring core of the `dokumen` repository.

The development shallowly embeds the Python modules
`src/quality/gate.py`, `src/aggregation/export.py` and
`src/validation/hierarchical_validator.py`:

* Python floats are modelled as exact rationals (`ℚ`), Python ints as
  `ℕ` / `ℤ`.
* Python strings are modelled as Lean `String`; `str.lower` is modelled
  by an ASCII case fold (`pyLower`), which agrees with CPython on all
  ASCII text (the fixed vocabularies used by the code are ASCII apart
  from already-lowercase Vietnamese letters, on which both sides are the
  identity).
* `round(x, 2)` is modelled as exact decimal rounding half to even
  (`pyRound2`), the idealisation of CPython rounding on floats.
* Fallible code is modelled with `Except`; file writes are recorded as a
  list of written artifacts.
-/

/-! ### Python string primitives -/

/-- Model of `str.lower` (exact on ASCII input). -/
def pyLower (s : String) : String :=
  String.mk (s.data.map Char.toLower)

/-- Model of `str.count(c)` for a single character `c`:
the number of occurrences of `c` in the string. -/
def pyCountChar (s : String) (c : Char) : Nat :=
  s.data.count c

/-- Substring test on character lists: `pat` occurs contiguously in `s`. -/
def listIsSubstr (pat : List Char) : List Char → Bool
  | [] => pat.isEmpty
  | c :: rest => pat.isPrefixOf (c :: rest) || listIsSubstr pat rest

/-- Model of the Python membership test `pat in s` on strings. -/
def pyContains (s pat : String) : Bool :=
  listIsSubstr pat.data s.data

/-- Non-overlapping occurrence count on character lists, scanning from the
left, as CPython `str.count` does. Only called with non-empty patterns. -/
def listCountSub (pat : List Char) : List Char → Nat
  | [] => 0
  | c :: rest =>
    if pat ≠ [] ∧ pat.isPrefixOf (c :: rest) then
      listCountSub pat (rest.drop (pat.length - 1)) + 1
    else
      listCountSub pat rest
termination_by l => l.length
decreasing_by
  · simp only [List.length_drop, List.length_cons]
    omega
  · simp only [List.length_cons]
    omega

/-- Model of `s.count(pat)` for a string pattern. -/
def pyCountSub (s pat : String) : Nat :=
  listCountSub pat.data s.data

/-- Helper for `pySplitWords`: split a character list on runs of
whitespace, accumulating the current (reversed) word. -/
def splitWSAux (cur : List Char) : List Char → List (List Char)
  | [] => if cur.isEmpty then [] else [cur.reverse]
  | c :: rest =>
    if c.isWhitespace then
      if cur.isEmpty then splitWSAux [] rest
      else cur.reverse :: splitWSAux [] rest
    else
      splitWSAux (c :: cur) rest

/-- Model of Python `str.split()` with no argument: maximal runs of
non-whitespace characters, in order; no empty words. -/
def pySplitWords (s : String) : List String :=
  (splitWSAux [] s.data).map String.mk

/-- Model of `str.capitalize`: first character upper-cased, the rest
lower-cased (ASCII case mapping). -/
def pyCapitalize (s : String) : String :=
  match s.data with
  | [] => ""
  | c :: rest => String.mk (c.toUpper :: rest.map Char.toLower)

/-- Number of distinct words of `a` that also occur in `b`; this is the
cardinality of the intersection of the two word sets,
`len(set(a) & set(b))` in Python. -/
def wordSetInter (a b : List String) : Nat :=
  (a.dedup.filter (fun w => b.contains w)).length

/-! ### Decimal rounding

`pyRoundHalfEven` is round-half-to-even on rationals, the rounding mode
of Python `round`; `pyRound2` rounds to two decimal places as
`round(x, 2)` does. -/

/-- Round a rational to the nearest integer, ties to the even integer. -/
def pyRoundHalfEven (q : ℚ) : ℤ :=
  if q - ⌊q⌋ < 1 / 2 then ⌊q⌋
  else if 1 / 2 < q - ⌊q⌋ then ⌊q⌋ + 1
  else if Even ⌊q⌋ then ⌊q⌋ else ⌊q⌋ + 1

/-- Model of Python `round(q, 2)`: decimal rounding half to even. -/
def pyRound2 (q : ℚ) : ℚ :=
  (pyRoundHalfEven (q * 100) : ℚ) / 100

/-! ### Extracted-data bundle (`src/quality/gate.py`)

The scoring primitives read a flattened dict. Steps are dicts with the
keys `action` and `description`, edge cases are dicts with the keys
`scenario` and `mitigation` (a missing or `None` value is modelled by
the empty string, which has the same truthiness), and tech-stack values
are either plain strings or dicts of string fields. -/

/-- A happy-path step record: keys `action` and `description`. -/
structure HPStep where
  action : String
  description : String
deriving DecidableEq, Repr

/-- Model of `str(step)` for a step dict: the CPython dict repr with
the two keys in insertion order. -/
def HPStep.pyStr (s : HPStep) : String :=
  "\x7b\x27action\x27: \x27" ++ s.action ++
    "\x27, \x27description\x27: \x27" ++ s.description ++ "\x27\x7d"

/-- An edge-case record: keys `scenario` and `mitigation`. -/
structure ECase where
  scenario : String
  mitigation : String
deriving DecidableEq, Repr

/-- A tech-stack value: a plain string or a dict of string fields
(keys assumed distinct, as in a Python dict). -/
inductive TechDetails where
  | strVal (s : String)
  | dictVal (fields : List (String × String))
deriving DecidableEq, Repr

/-- Model of `str(v)` for a tech-stack value: a plain string renders as
itself, a dict renders as the CPython dict repr. -/
def TechDetails.pyStr : TechDetails → String
  | .strVal s => s
  | .dictVal fields =>
    "\x7b" ++
      String.intercalate ", "
        (fields.map (fun kv => "\x27" ++ kv.1 ++ "\x27: \x27" ++ kv.2 ++ "\x27")) ++
      "\x7d"

/-- Model of `isinstance(details, dict) and details.get("rationale")`
being truthy: the value is a dict whose `rationale` field is a
non-empty string. -/
def TechDetails.rationaleTruthy : TechDetails → Bool
  | .strVal _ => false
  | .dictVal fields =>
    match fields.lookup "rationale" with
    | some s => s ≠ ""
    | none => false

/-- The flattened extracted-data dict read by the scoring primitives.
`data_models` and `api_spec` record the truthiness of the homonymous
dict entries. -/
structure ExtractedData where
  happy_path : List HPStep
  edge_cases : List ECase
  tech_stack : List (String × TechDetails)
  data_models : Bool
  api_spec : Bool
deriving DecidableEq, Repr

/-! ### Scoring primitives (`src/quality/gate.py`, lines 143-247) -/

/-- Embedding of `calculate_depth_score`: an additive point system
capped at 10. Note that the two detail conditions count space
characters (`.count(" ")`), not words. -/
def calculate_depth_score (data : ExtractedData) : ℚ :=
  let score : ℚ := 0
  let score := if 5 ≤ data.happy_path.length then score + 1 else score
  let score :=
    if data.happy_path.any (fun step => 10 < pyCountChar step.description ' ') then
      score + 1 else score
  let score :=
    if data.happy_path.any (fun step => pyContains (pyLower step.pyStr) "validation") then
      score + 1 else score
  let score := if 5 ≤ data.edge_cases.length then score + 1 else score
  let score := if data.edge_cases.any (fun c => c.mitigation ≠ "") then score + 1 else score
  let score :=
    if data.edge_cases.any (fun c => 5 < pyCountChar c.scenario ' ') then
      score + 1 else score
  let score := if 3 ≤ data.tech_stack.length then score + 1 else score
  let score :=
    if data.tech_stack.any (fun kv => pyContains (pyLower kv.2.pyStr) "rationale") then
      score + 1 else score
  let score := if data.data_models then score + 1 else score
  let score := if data.api_spec then score + 1 else score
  min score 10

/-- Embedding of `check_technical_feasibility`: percentage of feasible
items among tech-stack entries and edge cases, rounded to two decimals,
0 when no items are examined. -/
def check_technical_feasibility (data : ExtractedData) : ℚ :=
  let tally1 :=
    data.tech_stack.foldl
      (fun acc kv => (acc.1 + 1, acc.2 + (if kv.2.rationaleTruthy then 1 else 0)))
      ((0 : ℕ), (0 : ℕ))
  let tally2 :=
    data.edge_cases.foldl
      (fun acc c => (acc.1 + 1, acc.2 + (if c.mitigation ≠ "" then 1 else 0)))
      tally1
  pyRound2 (if 0 < tally2.1 then (tally2.2 : ℚ) / (tally2.1 : ℚ) * 100 else 0)

/-- Embedding of `find_logic_contradictions`: counts the edge cases
whose scenario mentions "fail" while some happy-path action mentions
"success". The `content` argument is unused, as in the source. -/
def find_logic_contradictions (content : String) (data : ExtractedData) : ℕ :=
  (data.edge_cases.filter (fun c =>
    pyContains (pyLower c.scenario) "fail" &&
    data.happy_path.any (fun step => pyContains (pyLower step.action) "success"))).length

/-- The fixed AI-speak phrase list of `detect_ai_speak`. -/
def aiSpeakPatterns : List String :=
  [ "Dưới đây là"
  , "Tôi hy vọng"
  , "Như đã đề cập"
  , "Trong tài liệu này"
  , "Tôi sẽ"
  , "Hãy để tôi"
  , "Chúng ta hãy" ]

/-- Embedding of `detect_ai_speak`: sums the occurrence counts of each
lower-cased pattern in the lower-cased content. -/
def detect_ai_speak (content : String) : ℕ :=
  aiSpeakPatterns.foldl
    (fun count pat => count + pyCountSub (pyLower content) (pyLower pat)) 0

/-! ### Quality gate report (`src/quality/gate.py`, lines 17-140) -/

/-- `QualityThreshold.DEPTH_SCORE_MIN.value`. -/
def DEPTH_SCORE_MIN : ℚ := 8.0

/-- `QualityThreshold.EDGE_CASE_MIN.value`. -/
def EDGE_CASE_MIN : ℕ := 5

/-- `QualityThreshold.TECHNICAL_FEASIBILITY.value`. -/
def TECHNICAL_FEASIBILITY : ℚ := 100.0

/-- `QualityThreshold.LOGIC_CONSISTENCY.value`. -/
def LOGIC_CONSISTENCY : ℚ := 0

/-- `QualityThreshold.NO_AI_SPEAK.value`. -/
def NO_AI_SPEAK : ℕ := 0

/-- Rendering of a number inside an f-string. CPython prints floats in
decimal notation; no claim depends on the printed digits, only on which
strings are produced at all. -/
def ratStr (q : ℚ) : String := toString q

/-- The `QualityGateReport` pydantic model: five raw metrics plus the
derived maturity score. -/
structure QualityGateReport where
  depth_score : ℚ
  edge_case_coverage : ℕ
  technical_feasibility : ℚ
  logic_consistency : ℚ
  ai_speak_instances : ℕ
  maturity_score : ℚ
deriving DecidableEq, Repr

/-- Embedding of constructing `QualityGateReport(...)`: the
`calculate_maturity_score` model validator (mode `before`) overwrites
whatever `maturity_score` the caller passed with the fixed weighted
sum, so `maturity_score_arg` is ignored. -/
def mkQualityGateReport (depth_score : ℚ) (edge_case_coverage : ℕ)
    (technical_feasibility : ℚ) (logic_consistency : ℚ)
    (ai_speak_instances : ℕ) (maturity_score_arg : ℚ) : QualityGateReport :=
  let edge_score : ℚ := min ((edge_case_coverage : ℚ) / 5 * 10) 10
  let consistency_score : ℚ := max (10 - logic_consistency * 2) 0
  let clarity_score : ℚ := max (5 - (ai_speak_instances : ℚ)) 0
  let maturity : ℚ :=
    depth_score * 0.40 + edge_score * 0.25 +
      technical_feasibility / 10 * 0.20 +
      consistency_score * 0.10 + clarity_score * 0.05
  { depth_score := depth_score
  , edge_case_coverage := edge_case_coverage
  , technical_feasibility := technical_feasibility
  , logic_consistency := logic_consistency
  , ai_speak_instances := ai_speak_instances
  , maturity_score := pyRound2 maturity }

/-- Embedding of the `passed_quality_gate` property. -/
def QualityGateReport.passed_quality_gate (r : QualityGateReport) : Bool :=
  decide (DEPTH_SCORE_MIN ≤ r.depth_score) &&
  decide (EDGE_CASE_MIN ≤ r.edge_case_coverage) &&
  decide (TECHNICAL_FEASIBILITY ≤ r.technical_feasibility) &&
  decide (r.logic_consistency = LOGIC_CONSISTENCY) &&
  decide (r.ai_speak_instances = NO_AI_SPEAK)

/-- Embedding of the `failure_reasons` property: one human-readable
string per violated threshold, in the order of the source. -/
def QualityGateReport.failure_reasons (r : QualityGateReport) : List String :=
  (if r.depth_score < DEPTH_SCORE_MIN then
     ["depth_score " ++ ratStr r.depth_score ++ " < " ++ ratStr DEPTH_SCORE_MIN]
   else []) ++
  (if r.edge_case_coverage < EDGE_CASE_MIN then
     ["edge_cases " ++ toString r.edge_case_coverage ++ " < " ++ toString EDGE_CASE_MIN]
   else []) ++
  (if r.technical_feasibility < TECHNICAL_FEASIBILITY then
     ["Technical feasibility " ++ ratStr r.technical_feasibility ++ "% < 100%"]
   else []) ++
  (if LOGIC_CONSISTENCY < r.logic_consistency then
     ["Found " ++ ratStr r.logic_consistency ++ " logic contradictions"]
   else []) ++
  (if NO_AI_SPEAK < r.ai_speak_instances then
     ["Found " ++ toString r.ai_speak_instances ++ " AI-speak instances"]
   else [])

/-- Embedding of `validate_quality_gate`: runs the four scoring
primitives and constructs the report (the passed `maturity_score=0`
is overwritten by the validator). -/
def validate_quality_gate (content : String) (extracted : ExtractedData) :
    QualityGateReport :=
  mkQualityGateReport
    (calculate_depth_score extracted)
    extracted.edge_cases.length
    (check_technical_feasibility extracted)
    ((find_logic_contradictions content extracted : ℕ) : ℚ)
    (detect_ai_speak content)
    0

/-! ### Export with quality-gate enforcement (`src/aggregation/export.py`)

`export_sdd` validates the artifact, loops `for retry in
range(max_retries)`, and (on success) writes the rendered document plus
a JSON sidecar of the report. The free-text content produced by
`template.format(**aggregated_data)` is taken as an input of the model.
Since `validate_quality_gate` is pure and its inputs do not change
between iterations, every iteration produces the same report. -/

/-- Errors that abort `export_sdd` before anything is written. -/
inductive ExportError where
  | valueError (msg : String)
  | qualityGateError (maturity : ℚ) (reasons : List String)
  | unboundLocalQualityReport
deriving DecidableEq, Repr

/-- The two artifacts a successful export writes. -/
inductive WrittenFile where
  | document
  | qualityReportSidecar
deriving DecidableEq, Repr

/-- Result of the export: the number of quality-gate validation
attempts performed, the outcome, and the files written. -/
structure ExportOutcome where
  attempts : ℕ
  result : Except ExportError QualityGateReport
  files : List WrittenFile
deriving Repr

/-- How the `for retry in range(max_retries)` loop ends. -/
inductive GateLoopResult where
  | broke (attempts : ℕ)
  | raised (attempts : ℕ) (maturity : ℚ) (reasons : List String)
  | exhausted (attempts : ℕ)
deriving DecidableEq, Repr

/-- Embedding of the quality-gate retry loop of `export_sdd`, iteration
index `retry` running over `range(maxRetries)`. One validation attempt
happens per entered iteration; `broke` covers both the pass break and
the unenforced-failure break, `raised` is the `QualityGateError` raise
on the last iteration, and `exhausted` means the loop body never ran. -/
def gateLoop (report : QualityGateReport) (enforce : Bool)
    (maxRetries : ℕ) (retry : ℕ) : GateLoopResult :=
  if _h : retry < maxRetries then
    if report.passed_quality_gate then .broke (retry + 1)
    else if enforce = false then .broke (retry + 1)
    else if retry < maxRetries - 1 then gateLoop report enforce maxRetries (retry + 1)
    else .raised (retry + 1) report.maturity_score report.failure_reasons
  else .exhausted retry
termination_by maxRetries - retry

/-- Embedding of `export_sdd`. `feature_name`, the three projected data
fields and the rendered `content` stand for `aggregated_data` and
`template.format(**aggregated_data)`; `max_retries` is a Python int,
and `range` of a non-positive int is empty. When the loop body never
runs, the later read of `quality_report` raises `UnboundLocalError`
before any file is written. -/
def export_sdd (feature_name : String) (happy_path : List HPStep)
    (edge_cases : List ECase) (tech_stack : List (String × TechDetails))
    (content : String) (enforce_quality_gate : Bool) (max_retries : ℤ) :
    ExportOutcome :=
  if feature_name = "" then
    ⟨0, .error (.valueError "Missing required field: feature_name"), []⟩
  else
    let extracted : ExtractedData :=
      { happy_path := happy_path
      , edge_cases := edge_cases
      , tech_stack := tech_stack
      , data_models := false
      , api_spec := false }
    let quality_report := validate_quality_gate content extracted
    match gateLoop quality_report enforce_quality_gate max_retries.toNat 0 with
    | .broke n => ⟨n, .ok quality_report, [.document, .qualityReportSidecar]⟩
    | .raised n m rs => ⟨n, .error (.qualityGateError m rs), []⟩
    | .exhausted n => ⟨n, .error .unboundLocalQualityReport, []⟩

/-! ### Hierarchical validator (`src/validation/hierarchical_validator.py`)

`HierarchicalValidator` carries no state; its class constants and
methods are embedded as plain definitions. Only the schema fields the
validator reads are modelled: `steps` of the happy path, and
`edge_cases` / `resilience_score` / `coverage_score` of a stress
report, with `description` and `trigger_condition` on an edge case. -/

/-- A workflow flow step; the validator only uses the step count. -/
structure FlowStepV where
  description : String
deriving DecidableEq, Repr

/-- The `HappyPath` fields read by the validator. -/
structure VHappyPath where
  steps : List FlowStepV
deriving DecidableEq, Repr

/-- The `EdgeCase` fields read by the validator. -/
structure VEdgeCase where
  description : String
  trigger_condition : String
deriving DecidableEq, Repr

/-- The `StressTestReport` fields read by the validator; the two scores
are Python ints. -/
structure StressTestReportV where
  edge_cases : List VEdgeCase
  resilience_score : ℤ
  coverage_score : ℤ
deriving DecidableEq, Repr

/-- `HierarchicalValidator.TECHNICAL_KEYWORDS`. -/
def TECHNICAL_KEYWORDS : List String :=
  [ "database", "network", "concurrency", "timeout", "connection", "api"
  , "race condition", "transaction", "circuit breaker", "pool", "latency"
  , "throughput", "scalability", "availability", "consistency"
  , "replication", "sharding", "caching", "load balancer", "microservice"
  , "container", "deployment", "monitoring", "logging", "authentication"
  , "authorization", "encryption", "ssl", "tls", "http", "https", "grpc"
  , "websocket", "queue", "message", "event", "async", "synchronous"
  , "blocking", "non-blocking" ]

/-- `HierarchicalValidator.MIN_HAPPY_PATH_STEPS`. -/
def MIN_HAPPY_PATH_STEPS : ℕ := 3

/-- `HierarchicalValidator.MIN_EDGE_CASES_PER_REPORT`. -/
def MIN_EDGE_CASES_PER_REPORT : ℕ := 5

/-- `HierarchicalValidator.MIN_QUALITY_SCORE`. -/
def MIN_QUALITY_SCORE : ℤ := 70

/-- Embedding of `_validate_happy_path`. -/
def validate_happy_path (happy_path : VHappyPath) : Bool × List String :=
  let errors : List String :=
    if happy_path.steps.length < MIN_HAPPY_PATH_STEPS then
      [ "Happy path must have at least " ++ toString MIN_HAPPY_PATH_STEPS ++
          " steps, got " ++ toString happy_path.steps.length ]
    else []
  (errors.length = 0, errors)

/-- Embedding of `_check_technical_keywords`: scan each edge case in
order and, inside it, each keyword in list order; a keyword is recorded
once, the first time it is seen. -/
def check_technical_keywords (edge_cases : List VEdgeCase) : List String :=
  edge_cases.foldl
    (fun keywords_found edge_case =>
      let text_to_check :=
        pyLower edge_case.description ++ " " ++ pyLower edge_case.trigger_condition
      TECHNICAL_KEYWORDS.foldl
        (fun found keyword =>
          if pyContains text_to_check (pyLower keyword) && !found.contains keyword then
            found ++ [keyword]
          else found)
        keywords_found)
    []

/-- Embedding of `_validate_stress_report`: errors for the structural
and score minimums, plus (for the business report only) a keyword
leakage warning. -/
def validate_stress_report (report : StressTestReportV) (report_type : String) :
    Bool × List String × List String :=
  let errors : List String :=
    (if report.edge_cases.length < MIN_EDGE_CASES_PER_REPORT then
       [ pyCapitalize report_type ++ " report must have at least " ++
           toString MIN_EDGE_CASES_PER_REPORT ++ " edge cases, got " ++
           toString report.edge_cases.length ]
     else []) ++
    (if report.resilience_score < MIN_QUALITY_SCORE then
       [ pyCapitalize report_type ++ " report resilience score (" ++
           toString report.resilience_score ++ ") is below minimum threshold (" ++
           toString MIN_QUALITY_SCORE ++ ")" ]
     else []) ++
    (if report.coverage_score < MIN_QUALITY_SCORE then
       [ pyCapitalize report_type ++ " report coverage score (" ++
           toString report.coverage_score ++ ") is below minimum threshold (" ++
           toString MIN_QUALITY_SCORE ++ ")" ]
     else [])
  let warnings : List String :=
    if report_type = "business" then
      let technical_keywords_found := check_technical_keywords report.edge_cases
      if technical_keywords_found ≠ [] then
        [ "Business edge cases contain technical keywords: " ++
            String.intercalate ", " technical_keywords_found ++
            ". These should be in technical edge cases instead." ]
      else []
    else []
  (errors.length = 0, errors, warnings)

/-- The overlap warning emitted by `_validate_no_overlap` for a
technical-case description and the (lower-cased) business description
it collides with. -/
def overlapWarning (techDescription bizDesc : String) : String :=
  "Possible overlap detected: Technical case \x27" ++ techDescription ++
    "\x27 shares significant words with business case \x27" ++ bizDesc ++
    "\x27. Consider consolidating or clarifying the distinction."

/-- Inner loop of `_validate_no_overlap`: scan the business
descriptions in order and return the first whose word set shares more
than 3 words with `tech_words`, mirroring the `break`. -/
def overlapScanBiz (tech_words : List String) : List String → Option String
  | [] => none
  | biz_desc :: rest =>
    if 3 < wordSetInter tech_words (pySplitWords biz_desc) then some biz_desc
    else overlapScanBiz tech_words rest

/-- Outer loop of `_validate_no_overlap` over the technical cases. -/
def overlapLoop (business_descriptions : List String) :
    List VEdgeCase → List String
  | [] => []
  | tech_case :: rest =>
    match overlapScanBiz (pySplitWords (pyLower tech_case.description))
        business_descriptions with
    | some biz_desc =>
      overlapWarning tech_case.description biz_desc ::
        overlapLoop business_descriptions rest
    | none => overlapLoop business_descriptions rest

/-- Embedding of `_validate_no_overlap`. -/
def validate_no_overlap (business_cases technical_cases : List VEdgeCase) :
    List String :=
  overlapLoop (business_cases.map (fun case => pyLower case.description))
    technical_cases

/-- Embedding of `validate_hierarchical_result`: collect errors and
warnings from the three sub-validations and the overlap check; the
verdict ignores warnings. -/
def validate_hierarchical_result (happy_path : VHappyPath)
    (business_exceptions technical_edge_cases : StressTestReportV) :
    Bool × List String :=
  let hp := validate_happy_path happy_path
  let business := validate_stress_report business_exceptions "business"
  let technical := validate_stress_report technical_edge_cases "technical"
  let overlap_warnings :=
    validate_no_overlap business_exceptions.edge_cases
      technical_edge_cases.edge_cases
  let errors := hp.2 ++ business.2.1 ++ technical.2.1
  let warnings := business.2.2 ++ technical.2.2 ++ overlap_warnings
  let all_issues := errors ++ warnings
  let is_valid := hp.1 && business.1 && technical.1
  (is_valid, all_issues)

/-! ### Derived views used to state the claims -/

/-- The hard-error part of the issue list of
`validate_hierarchical_result`: happy-path errors, then business-report
errors, then technical-report errors. -/
def hierarchicalHardErrors (happy_path : VHappyPath)
    (business_exceptions technical_edge_cases : StressTestReportV) : List String :=
  (validate_happy_path happy_path).2 ++
    (validate_stress_report business_exceptions "business").2.1 ++
    (validate_stress_report technical_edge_cases "technical").2.1

/-- The soft-warning part of the issue list of
`validate_hierarchical_result`: keyword-leakage warnings of the two
reports, then the overlap warnings. -/
def hierarchicalSoftWarnings
    (business_exceptions technical_edge_cases : StressTestReportV) : List String :=
  (validate_stress_report business_exceptions "business").2.2 ++
    (validate_stress_report technical_edge_cases "technical").2.2 ++
    validate_no_overlap business_exceptions.edge_cases
      technical_edge_cases.edge_cases

/-! ### Rounding lemmas -/

lemma pyRoundHalfEven_intCast (n : ℤ) : pyRoundHalfEven (n : ℚ) = n := by
  simp [pyRoundHalfEven]

lemma le_pyRoundHalfEven_floor (q : ℚ) : ⌊q⌋ ≤ pyRoundHalfEven q := by
  unfold pyRoundHalfEven
  split_ifs <;> omega

lemma pyRoundHalfEven_le_floor_add_one (q : ℚ) :
    pyRoundHalfEven q ≤ ⌊q⌋ + 1 := by
  unfold pyRoundHalfEven
  split_ifs <;> omega

lemma pyRoundHalfEven_mono {a b : ℚ} (h : a ≤ b) :
    pyRoundHalfEven a ≤ pyRoundHalfEven b := by
  rcases lt_or_eq_of_le (Int.floor_mono h : ⌊a⌋ ≤ ⌊b⌋) with hf | hf
  · calc pyRoundHalfEven a ≤ ⌊a⌋ + 1 := pyRoundHalfEven_le_floor_add_one a
      _ ≤ ⌊b⌋ := by omega
      _ ≤ pyRoundHalfEven b := le_pyRoundHalfEven_floor b
  · unfold pyRoundHalfEven
    rw [hf]
    have hab : a - (⌊b⌋ : ℚ) ≤ b - (⌊b⌋ : ℚ) := by linarith
    split_ifs <;> first | omega | linarith

lemma pyRound2_mono {a b : ℚ} (h : a ≤ b) : pyRound2 a ≤ pyRound2 b := by
  unfold pyRound2
  have : pyRoundHalfEven (a * 100) ≤ pyRoundHalfEven (b * 100) :=
    pyRoundHalfEven_mono (by linarith)
  exact div_le_div_of_nonneg_right (by exact_mod_cast this) (by norm_num)

lemma pyRound2_le_of_le {a c : ℚ} (hc : ∃ n : ℤ, (n : ℚ) = c * 100)
    (h : a ≤ c) : pyRound2 a ≤ c := by
  obtain ⟨n, hn⟩ := hc
  have h1 : pyRound2 a ≤ pyRound2 c := pyRound2_mono h
  have h2 : pyRound2 c = c := by
    unfold pyRound2
    rw [← hn, pyRoundHalfEven_intCast, hn]
    field_simp
  linarith

lemma pyRound2_eq_intDiv (q : ℚ) (n : ℤ) (h : q * 100 = (n : ℚ)) :
    pyRound2 q = (n : ℚ) / 100 := by
  unfold pyRound2
  rw [h, pyRoundHalfEven_intCast]

lemma pyRound2_zero : pyRound2 0 = 0 := by
  unfold pyRound2
  rw [show ((0 : ℚ) * 100) = ((0 : ℤ) : ℚ) by norm_num, pyRoundHalfEven_intCast]
  norm_num

/-! ### Bookkeeping lemmas -/

lemma ite_acc (c : Prop) [Decidable c] (q : ℚ) :
    (if c then q + 1 else q) = q + (if c then 1 else 0) := by
  split_ifs <;> simp

lemma tally_foldl {α : Type} (p : α → Prop) [DecidablePred p] (l : List α) (a b : ℕ) :
    l.foldl (fun acc x => (acc.1 + 1, acc.2 + (if p x then 1 else 0))) (a, b) =
      (a + l.length, b + (l.filter (fun x => decide (p x))).length) := by
  induction l generalizing a b with
  | nil => simp
  | cons x xs ih =>
    simp only [List.foldl_cons, ih, List.length_cons, List.filter_cons]
    split_ifs <;> simp_all <;> omega

lemma gateLoop_raised_of_failed (report : QualityGateReport)
    (h : report.passed_quality_gate = false) (maxRetries : ℕ) :
    ∀ fuel retry, maxRetries - retry = fuel → retry < maxRetries →
      gateLoop report true maxRetries retry =
        .raised maxRetries report.maturity_score report.failure_reasons := by
  intro fuel
  induction fuel with
  | zero => intro retry h1 h2; omega
  | succ n ih =>
    intro retry h1 h2
    unfold gateLoop
    rw [dif_pos h2, h]
    simp only [Bool.false_eq_true, if_false]
    rw [if_neg (by simp)]
    by_cases hlt : retry < maxRetries - 1
    · rw [if_pos hlt]
      exact ih (retry + 1) (by omega) (by omega)
    · rw [if_neg hlt]
      congr 1
      omega

lemma gateLoop_zero (report : QualityGateReport) (enforce : Bool) :
    gateLoop report enforce 0 0 = .exhausted 0 := by
  unfold gateLoop
  rw [dif_neg (by omega)]

lemma validate_happy_path_fst (hp : VHappyPath) :
    (validate_happy_path hp).1 = true ↔ 3 ≤ hp.steps.length := by
  simp only [validate_happy_path, MIN_HAPPY_PATH_STEPS]
  split_ifs <;> simp_all

lemma validate_stress_report_fst (r : StressTestReportV) (ty : String) :
    (validate_stress_report r ty).1 = true ↔
      (5 ≤ r.edge_cases.length ∧ 70 ≤ r.resilience_score ∧ 70 ≤ r.coverage_score) := by
  simp only [validate_stress_report, MIN_EDGE_CASES_PER_REPORT, MIN_QUALITY_SCORE]
  split_ifs <;> simp_all

lemma overlapScanBiz_eq_find (tw : List String) (bds : List String) :
    overlapScanBiz tw bds =
      bds.find? (fun bd => decide (3 < wordSetInter tw (pySplitWords bd))) := by
  induction bds with
  | nil => rfl
  | cons bd rest ih =>
    unfold overlapScanBiz
    by_cases h : 3 < wordSetInter tw (pySplitWords bd)
    · rw [if_pos h, List.find?_cons_of_pos _ (by simpa using h)]
    · rw [if_neg h, List.find?_cons_of_neg _ (by simpa using h), ih]

lemma overlapLoop_eq_filterMap (bds : List String) (tcs : List VEdgeCase) :
    overlapLoop bds tcs =
      tcs.filterMap (fun tc =>
        (overlapScanBiz (pySplitWords (pyLower tc.description)) bds).map
          (overlapWarning tc.description)) := by
  induction tcs with
  | nil => rfl
  | cons tc rest ih =>
    unfold overlapLoop
    cases hscan : overlapScanBiz (pySplitWords (pyLower tc.description)) bds with
    | none => simp [List.filterMap_cons, hscan, ih]
    | some bd => simp [List.filterMap_cons, hscan, ih]

lemma validate_empty_fails :
    (validate_quality_gate ""
      { happy_path := [], edge_cases := [], tech_stack := []
      , data_models := false, api_spec := false }).passed_quality_gate = false := by
  unfold validate_quality_gate
  have hd : calculate_depth_score
      { happy_path := [], edge_cases := [], tech_stack := []
      , data_models := false, api_spec := false } = 0 := by decide
  rw [hd]
  simp only [mkQualityGateReport, QualityGateReport.passed_quality_gate,
    DEPTH_SCORE_MIN]
  norm_num

/-! ### Claim theorems -/

/-- C1: for in-range raw inputs, the constructed `QualityGateReport`
stores as `maturity_score` the two-decimal rounding of the fixed
weighted sum of the five raw metrics, whatever `maturity_score` value
the caller passes; in particular depth 8.5, 6 edge cases, feasibility
100, 0 contradictions and 0 AI-speak yield maturity 9.15, a passing
gate and an empty failure-reason list (shown with caller value 17 to
exhibit the override). -/
theorem quality_report_maturity_construction
    (depth : ℚ) (edge : ℕ) (feas logic : ℚ) (ai : ℕ) (m : ℚ)
    (hd0 : 0 ≤ depth) (hd1 : depth ≤ 10) (hf0 : 0 ≤ feas)
    (hf1 : feas ≤ 100) (hl : 0 ≤ logic) :
    (mkQualityGateReport depth edge feas logic ai m).maturity_score =
      pyRound2 (depth * 0.40 + min ((edge : ℚ) / 5 * 10) 10 * 0.25 +
        feas / 10 * 0.20 + max (10 - logic * 2) 0 * 0.10 +
        max (5 - (ai : ℚ)) 0 * 0.05) ∧
    (mkQualityGateReport 8.5 6 100.0 0 0 17).maturity_score = 9.15 ∧
    (mkQualityGateReport 8.5 6 100.0 0 0 17).passed_quality_gate = true ∧
    (mkQualityGateReport 8.5 6 100.0 0 0 17).failure_reasons = [] := by
  refine ⟨rfl, ?_, ?_, ?_⟩
  · show pyRound2 _ = _
    rw [pyRound2_eq_intDiv _ 915 (by norm_num)]
    norm_num
  · simp only [mkQualityGateReport, QualityGateReport.passed_quality_gate,
      DEPTH_SCORE_MIN, EDGE_CASE_MIN, TECHNICAL_FEASIBILITY, LOGIC_CONSISTENCY,
      NO_AI_SPEAK]
    norm_num
  · simp only [mkQualityGateReport, QualityGateReport.failure_reasons,
      DEPTH_SCORE_MIN, EDGE_CASE_MIN, TECHNICAL_FEASIBILITY, LOGIC_CONSISTENCY,
      NO_AI_SPEAK]
    norm_num

/-- Witness for C1 at concrete in-range inputs. -/
theorem quality_report_maturity_construction_witness :
    (mkQualityGateReport 7 4 50 1 2 3).maturity_score =
      pyRound2 (7 * 0.40 + min ((4 : ℚ) / 5 * 10) 10 * 0.25 + 50 / 10 * 0.20 +
        max (10 - 1 * 2) 0 * 0.10 + max (5 - ((2 : ℕ) : ℚ)) 0 * 0.05) ∧
    (mkQualityGateReport 8.5 6 100.0 0 0 17).maturity_score = 9.15 :=
  ⟨(quality_report_maturity_construction 7 4 50 1 2 3 (by norm_num) (by norm_num)
      (by norm_num) (by norm_num) (by norm_num)).1,
   (quality_report_maturity_construction 7 4 50 1 2 3 (by norm_num) (by norm_num)
      (by norm_num) (by norm_num) (by norm_num)).2.1⟩

/-- C2 counterexample: the source counts space characters, not words.
An 11-word single-spaced step description (10 spaces) and a 6-word
single-spaced edge-case scenario (5 spaces) earn no depth point, even
though the claim says more than 10 words resp. more than 5 words
should earn it; `calculate_depth_score` returns 0 on both bundles. -/
theorem depth_score_word_point_refuted :
    10 < (pySplitWords "the quick brown fox jumps over one lazy sleeping dog today").length ∧
    calculate_depth_score
      { happy_path := [{ action := "login"
                       , description := "the quick brown fox jumps over one lazy sleeping dog today" }]
      , edge_cases := [], tech_stack := [], data_models := false, api_spec := false } = 0 ∧
    5 < (pySplitWords "user enters the wrong password twice").length ∧
    calculate_depth_score
      { happy_path := []
      , edge_cases := [{ scenario := "user enters the wrong password twice", mitigation := "" }]
      , tech_stack := [], data_models := false, api_spec := false } = 0 := by
  refine ⟨by decide, by decide, by decide, by decide⟩

/-- C2 (amended): `calculate_depth_score` is the cap at 10 of ten
independent one-point indicators; the happy-path detail point is
awarded exactly when some step description contains more than 10 space
characters, and the edge-case quality point for scenario length exactly
when some scenario contains more than 5 space characters (an n-word
single-spaced text contains n - 1 spaces). -/
theorem depth_score_space_count_characterization (data : ExtractedData) :
    calculate_depth_score data =
      min ((if 5 ≤ data.happy_path.length then (1 : ℚ) else 0) +
        (if ∃ step ∈ data.happy_path, 10 < pyCountChar step.description ' ' then 1 else 0) +
        (if ∃ step ∈ data.happy_path, pyContains (pyLower step.pyStr) "validation" = true then 1 else 0) +
        (if 5 ≤ data.edge_cases.length then 1 else 0) +
        (if ∃ c ∈ data.edge_cases, c.mitigation ≠ "" then 1 else 0) +
        (if ∃ c ∈ data.edge_cases, 5 < pyCountChar c.scenario ' ' then 1 else 0) +
        (if 3 ≤ data.tech_stack.length then 1 else 0) +
        (if ∃ kv ∈ data.tech_stack, pyContains (pyLower (kv.2.pyStr)) "rationale" = true then 1 else 0) +
        (if data.data_models = true then 1 else 0) +
        (if data.api_spec = true then 1 else 0)) 10 := by
  simp only [calculate_depth_score, List.any_eq_true, decide_eq_true_eq, ite_acc,
    zero_add]

/-- C3: for a report constructed from in-range raw inputs, the gate
passes exactly when the failure-reason list is empty. -/
theorem passed_gate_iff_no_failure_reasons
    (depth : ℚ) (edge : ℕ) (feas logic : ℚ) (ai : ℕ) (m : ℚ)
    (hd0 : 0 ≤ depth) (hd1 : depth ≤ 10) (hf0 : 0 ≤ feas)
    (hf1 : feas ≤ 100) (hl : 0 ≤ logic) :
    (mkQualityGateReport depth edge feas logic ai m).passed_quality_gate = true ↔
      (mkQualityGateReport depth edge feas logic ai m).failure_reasons = [] := by
  have hpass : (mkQualityGateReport depth edge feas logic ai m).passed_quality_gate = true ↔
      (8.0 ≤ depth ∧ 5 ≤ edge ∧ 100.0 ≤ feas ∧ logic = 0 ∧ ai = 0) := by
    simp [mkQualityGateReport, QualityGateReport.passed_quality_gate,
      DEPTH_SCORE_MIN, EDGE_CASE_MIN, TECHNICAL_FEASIBILITY, LOGIC_CONSISTENCY,
      NO_AI_SPEAK, and_assoc]
  have hreas : (mkQualityGateReport depth edge feas logic ai m).failure_reasons = [] ↔
      (¬ depth < 8.0 ∧ ¬ edge < 5 ∧ ¬ feas < 100.0 ∧ ¬ (0 : ℚ) < logic ∧ ¬ 0 < ai) := by
    simp [mkQualityGateReport, QualityGateReport.failure_reasons, DEPTH_SCORE_MIN,
      EDGE_CASE_MIN, TECHNICAL_FEASIBILITY, LOGIC_CONSISTENCY, NO_AI_SPEAK,
      List.append_eq_nil, ite_eq_right_iff, and_assoc]
  rw [hpass, hreas]
  push_neg
  constructor
  · rintro ⟨h1, h2, h3, h4, h5⟩
    exact ⟨h1, h2, h3, le_of_eq h4, by omega⟩
  · rintro ⟨h1, h2, h3, h4, h5⟩
    exact ⟨h1, h2, h3, le_antisymm h4 hl, by omega⟩

/-- Witness for C3 at concrete in-range inputs. -/
theorem passed_gate_iff_no_failure_reasons_witness :
    ((mkQualityGateReport 8.5 6 100.0 0 0 0).passed_quality_gate = true ↔
      (mkQualityGateReport 8.5 6 100.0 0 0 0).failure_reasons = []) :=
  passed_gate_iff_no_failure_reasons 8.5 6 100.0 0 0 0 (by norm_num) (by norm_num)
    (by norm_num) (by norm_num) (by norm_num)

/-- C4: with enforcement on, a non-empty feature name, a report that
fails the gate and a positive retry budget, `export_sdd` performs
exactly `max_retries` validation attempts and then raises
`QualityGateError` carrying the final maturity score and the
failure-reason list, writing no document and no sidecar. -/
theorem export_retry_exhaustion_raises (feature_name : String)
    (happy_path : List HPStep) (edge_cases : List ECase)
    (tech_stack : List (String × TechDetails)) (content : String)
    (max_retries : ℤ)
    (hfn : feature_name ≠ "") (hmr : 1 ≤ max_retries)
    (hfail : (validate_quality_gate content
        { happy_path := happy_path, edge_cases := edge_cases
        , tech_stack := tech_stack, data_models := false
        , api_spec := false }).passed_quality_gate = false) :
    export_sdd feature_name happy_path edge_cases tech_stack content true
        max_retries =
      { attempts := max_retries.toNat
      , result := .error (.qualityGateError
          (validate_quality_gate content
            { happy_path := happy_path, edge_cases := edge_cases
            , tech_stack := tech_stack, data_models := false
            , api_spec := false }).maturity_score
          (validate_quality_gate content
            { happy_path := happy_path, edge_cases := edge_cases
            , tech_stack := tech_stack, data_models := false
            , api_spec := false }).failure_reasons)
      , files := [] } := by
  unfold export_sdd
  rw [if_neg hfn]
  dsimp only
  rw [gateLoop_raised_of_failed _ hfail _ max_retries.toNat 0 (by omega) (by omega)]

/-- Witness for C4: Scenario E, an artifact with empty happy path and
edge cases and `max_retries = 2` raises after exactly 2 attempts with
no file written. -/
theorem export_retry_exhaustion_raises_witness :
    export_sdd "Login Feature" [] [] [] "" true 2 =
      { attempts := 2
      , result := .error (.qualityGateError
          (validate_quality_gate ""
            { happy_path := [], edge_cases := [], tech_stack := []
            , data_models := false, api_spec := false }).maturity_score
          (validate_quality_gate ""
            { happy_path := [], edge_cases := [], tech_stack := []
            , data_models := false, api_spec := false }).failure_reasons)
      , files := [] } :=
  export_retry_exhaustion_raises "Login Feature" [] [] [] "" 2 (by decide)
    (by norm_num) validate_empty_fails

/-- C5: for every hierarchical-result triple, the issue list is the
hard errors followed by the soft warnings, and the verdict is true
exactly when the error checks pass: at least 3 happy-path steps and,
for each of the two stress reports, at least 5 edge cases, resilience
at least 70 and coverage at least 70; keyword-leakage and overlap
findings live only in the warning suffix and never affect the
verdict. -/
theorem hierarchical_validity_driven_by_errors (happy_path : VHappyPath)
    (business_exceptions technical_edge_cases : StressTestReportV) :
    ((validate_hierarchical_result happy_path business_exceptions
        technical_edge_cases).1 = true ↔
      (3 ≤ happy_path.steps.length ∧
       5 ≤ business_exceptions.edge_cases.length ∧
       70 ≤ business_exceptions.resilience_score ∧
       70 ≤ business_exceptions.coverage_score ∧
       5 ≤ technical_edge_cases.edge_cases.length ∧
       70 ≤ technical_edge_cases.resilience_score ∧
       70 ≤ technical_edge_cases.coverage_score)) ∧
    (validate_hierarchical_result happy_path business_exceptions
        technical_edge_cases).2 =
      hierarchicalHardErrors happy_path business_exceptions technical_edge_cases ++
        hierarchicalSoftWarnings business_exceptions technical_edge_cases := by
  constructor
  · simp only [validate_hierarchical_result, Bool.and_eq_true,
      validate_happy_path_fst, validate_stress_report_fst, and_assoc]
  · simp only [validate_hierarchical_result, hierarchicalHardErrors,
      hierarchicalSoftWarnings, List.append_assoc]

/-- C6: the overlap check emits at most one warning per technical edge
case: the warning list arises by mapping each technical case to the
first business case (in list order) whose lower-cased description
shares more than 3 distinct words with its own, when one exists, so the
warning count never exceeds the number of technical cases. -/
theorem overlap_warning_per_technical_case
    (business_cases technical_cases : List VEdgeCase) :
    validate_no_overlap business_cases technical_cases =
      technical_cases.filterMap (fun tech_case =>
        ((business_cases.map (fun case => pyLower case.description)).find?
            (fun biz_desc => decide (3 < wordSetInter
              (pySplitWords (pyLower tech_case.description))
              (pySplitWords biz_desc)))).map
          (overlapWarning tech_case.description)) ∧
    (validate_no_overlap business_cases technical_cases).length ≤
      technical_cases.length := by
  have key : validate_no_overlap business_cases technical_cases =
      technical_cases.filterMap (fun tech_case =>
        ((business_cases.map (fun case => pyLower case.description)).find?
            (fun biz_desc => decide (3 < wordSetInter
              (pySplitWords (pyLower tech_case.description))
              (pySplitWords biz_desc)))).map
          (overlapWarning tech_case.description)) := by
    unfold validate_no_overlap
    rw [overlapLoop_eq_filterMap]
    simp only [overlapScanBiz_eq_find]
  refine ⟨key, ?_⟩
  rw [key]
  exact List.length_filterMap_le _ _

/-- C7: `check_technical_feasibility` equals the rounded percentage of
feasible items (tech-stack entries whose value is a dict with a
non-empty rationale, edge cases with a non-empty mitigation) among all
tech-stack entries and edge cases, and equals 0 when there is nothing
to examine. -/
theorem technical_feasibility_percentage (data : ExtractedData) :
    check_technical_feasibility data =
      (if data.tech_stack.length + data.edge_cases.length = 0 then 0
       else
         pyRound2
           ((((data.tech_stack.filter (fun kv => kv.2.rationaleTruthy)).length +
               (data.edge_cases.filter (fun c => c.mitigation ≠ "")).length : ℕ) : ℚ) /
             ((data.tech_stack.length + data.edge_cases.length : ℕ) : ℚ) * 100)) ∧
    (data.tech_stack.length + data.edge_cases.length = 0 →
      check_technical_feasibility data = 0) := by
  have key : check_technical_feasibility data =
      (if data.tech_stack.length + data.edge_cases.length = 0 then 0
       else
         pyRound2
           ((((data.tech_stack.filter (fun kv => kv.2.rationaleTruthy)).length +
               (data.edge_cases.filter (fun c => c.mitigation ≠ "")).length : ℕ) : ℚ) /
             ((data.tech_stack.length + data.edge_cases.length : ℕ) : ℚ) * 100)) := by
    unfold check_technical_feasibility
    simp only [tally_foldl, Nat.zero_add, zero_add, Bool.decide_eq_true, decide_not]
    by_cases h : data.tech_stack.length + data.edge_cases.length = 0
    · rw [if_pos h, if_neg (by omega)]
      exact pyRound2_zero
    · rw [if_neg h, if_pos (by omega)]
  exact ⟨key, fun h => by rw [key, if_pos h]⟩

/-- Witness for C7 on the empty bundle: zero items examined gives 0. -/
theorem technical_feasibility_percentage_witness :
    check_technical_feasibility
      { happy_path := [], edge_cases := [], tech_stack := []
      , data_models := false, api_spec := false } = 0 :=
  (technical_feasibility_percentage
    { happy_path := [], edge_cases := [], tech_stack := []
    , data_models := false, api_spec := false }).2 (by decide)

/-- C8: the derived maturity score is monotone in the raw metrics:
non-decreasing in `depth_score`, non-increasing in `logic_consistency`
and in `ai_speak_instances`, all other fields held fixed. -/
theorem maturity_score_monotonicity :
    (∀ (d1 d2 : ℚ) (e : ℕ) (f l : ℚ) (a : ℕ) (m : ℚ), d1 ≤ d2 →
      (mkQualityGateReport d1 e f l a m).maturity_score ≤
        (mkQualityGateReport d2 e f l a m).maturity_score) ∧
    (∀ (d : ℚ) (e : ℕ) (f l1 l2 : ℚ) (a : ℕ) (m : ℚ), l1 ≤ l2 →
      (mkQualityGateReport d e f l2 a m).maturity_score ≤
        (mkQualityGateReport d e f l1 a m).maturity_score) ∧
    (∀ (d : ℚ) (e : ℕ) (f l : ℚ) (a1 a2 : ℕ) (m : ℚ), a1 ≤ a2 →
      (mkQualityGateReport d e f l a2 m).maturity_score ≤
        (mkQualityGateReport d e f l a1 m).maturity_score) := by
  refine ⟨?_, ?_, ?_⟩
  · intro d1 d2 e f l a m h
    apply pyRound2_mono
    have := min_le_right ((e : ℚ) / 5 * 10) 10
    nlinarith [le_max_right (10 - l * 2) (0 : ℚ), le_max_right (5 - (a : ℚ)) (0 : ℚ)]
  · intro d e f l1 l2 a m h
    apply pyRound2_mono
    have hmax : max (10 - l2 * 2) 0 ≤ max (10 - l1 * 2) 0 :=
      max_le_max (by linarith) le_rfl
    nlinarith
  · intro d e f l a1 a2 m h
    apply pyRound2_mono
    have hcast : (a1 : ℚ) ≤ (a2 : ℚ) := by exact_mod_cast h
    have hmax : max (5 - (a2 : ℚ)) 0 ≤ max (5 - (a1 : ℚ)) 0 :=
      max_le_max (by linarith) le_rfl
    nlinarith

/-- Witness for C8 at concrete inputs for each of the three
monotonicity directions. -/
theorem maturity_score_monotonicity_witness :
    (mkQualityGateReport 7 5 80 1 1 0).maturity_score ≤
      (mkQualityGateReport 8 5 80 1 1 0).maturity_score ∧
    (mkQualityGateReport 7 5 80 2 1 0).maturity_score ≤
      (mkQualityGateReport 7 5 80 1 1 0).maturity_score ∧
    (mkQualityGateReport 7 5 80 1 2 0).maturity_score ≤
      (mkQualityGateReport 7 5 80 1 1 0).maturity_score :=
  ⟨maturity_score_monotonicity.1 7 8 5 80 1 1 0 (by norm_num),
   maturity_score_monotonicity.2.1 7 5 80 1 2 1 0 (by norm_num),
   maturity_score_monotonicity.2.2 7 5 80 1 1 2 0 (by norm_num)⟩

/-- C9: for in-range inputs the derived maturity score never exceeds
9.75 = 4.0 + 2.5 + 2.0 + 1.0 + 0.25, so the nominal field maximum of
10 is unattainable. -/
theorem maturity_score_upper_bound
    (depth : ℚ) (edge : ℕ) (feas logic : ℚ) (ai : ℕ) (m : ℚ)
    (hd1 : depth ≤ 10) (hf1 : feas ≤ 100) (hl : 0 ≤ logic) :
    (mkQualityGateReport depth edge feas logic ai m).maturity_score ≤ 9.75 := by
  show pyRound2 _ ≤ _
  apply pyRound2_le_of_le ⟨975, by norm_num⟩
  have h1 : min ((edge : ℚ) / 5 * 10) 10 ≤ 10 := min_le_right _ _
  have h2 : max (10 - logic * 2) 0 ≤ 10 := by
    apply max_le (by linarith) (by norm_num)
  have h3 : max (5 - (ai : ℚ)) 0 ≤ 5 := by
    have : (0 : ℚ) ≤ (ai : ℚ) := by positivity
    apply max_le (by linarith) (by norm_num)
  norm_num
  linarith

/-- Witness for C9 at the Scenario A inputs. -/
theorem maturity_score_upper_bound_witness :
    (mkQualityGateReport 8.5 6 100.0 0 0 17).maturity_score ≤ 9.75 :=
  maturity_score_upper_bound 8.5 6 100.0 0 0 17 (by norm_num) (by norm_num)
    (by norm_num)

/-- C10: with a non-empty feature name and `max_retries ≤ 0` the retry
loop body never runs, no quality-gate check happens, the later read of
the loop-local report raises `UnboundLocalError`, and nothing is
written: a positive retry budget is an implicit precondition of
`export_sdd`. -/
theorem export_nonpositive_retries_skips_gate (feature_name : String)
    (happy_path : List HPStep) (edge_cases : List ECase)
    (tech_stack : List (String × TechDetails)) (content : String)
    (enforce_quality_gate : Bool) (max_retries : ℤ)
    (hfn : feature_name ≠ "") (hmr : max_retries ≤ 0) :
    export_sdd feature_name happy_path edge_cases tech_stack content
        enforce_quality_gate max_retries =
      { attempts := 0
      , result := .error .unboundLocalQualityReport
      , files := [] } := by
  unfold export_sdd
  rw [if_neg hfn]
  dsimp only
  have h0 : max_retries.toNat = 0 := by omega
  rw [h0, gateLoop_zero]

/-- Witness for C10 at a concrete call with zero retries. -/
theorem export_nonpositive_retries_skips_gate_witness :
    export_sdd "x" [] [] [] "" true 0 =
      { attempts := 0
      , result := .error .unboundLocalQualityReport
      , files := [] } :=
  export_nonpositive_retries_skips_gate "x" [] [] [] "" true 0 (by decide)
    (by norm_num)
